import Mathlib

/-!
# Verification of the workout-machine BLE web app core

Shallow embedding of the core logic of the `workoutmachineappfree` web
application: the binary protocol frame builders (`protocol.js`,
`modes.js`), the rep-boundary detector and auto-stop safety gate
(`app.js`), and the GATT operation queue (documented in
`docs/API-MAP.md`).  Byte buffers are `List Nat` (each entry one byte),
machine integers are `Nat`/`Int` with explicit `% 2^w` where wraparound
matters, JavaScript numbers that carry fractional values are `ℚ`, and
fallible builders return `Except`.
-/

/- The Batteries rational-arithmetic primitives are sealed for rewriting
purposes; re-open them so that concrete frames and traces evaluate by
`decide`/`rfl` (the kernel unfolds them regardless; this only lets the
elaborator do the same). -/
attribute [local semireducible] Rat.add Rat.mul Rat.sub Rat.inv Rat.ofScientific

namespace WMach

/-! ## Byte-buffer primitives (model of `Uint8Array` + `DataView`) -/

/-- Truncation of a rational toward zero, as JavaScript `ToInteger`. -/
def jsTrunc (q : ℚ) : ℤ :=
  if 0 ≤ q then ⌊q⌋ else ⌈q⌉

/-- JavaScript `ToUint8` coercion applied on `Uint8Array` element writes. -/
def toU8 (q : ℚ) : Nat :=
  ((jsTrunc q).emod 256).toNat

/-- JavaScript `ToUint16` coercion applied by `DataView.setUint16`. -/
def toU16 (q : ℚ) : Nat :=
  ((jsTrunc q).emod 65536).toNat

/-- Write the byte `v % 256` at index `off` (out-of-range writes are
dropped, as `List.set` ignores them; the builders never go out of range). -/
def setByte (buf : List Nat) (off : Nat) (v : Nat) : List Nat :=
  buf.set off (v % 256)

/-- Write a list of bytes at consecutive offsets starting at `off`. -/
def writeBytes (buf : List Nat) (off : Nat) : List Nat → List Nat
  | [] => buf
  | b :: rest => writeBytes (buf.set off (b % 256)) (off + 1) rest

/-- Little-endian byte split of a 16-bit value (`DataView.setUint16`). -/
def setU16LE (buf : List Nat) (off : Nat) (v : Nat) : List Nat :=
  writeBytes buf off [v % 256, v / 256 % 256]

/-- Little-endian byte split of a 32-bit value (`DataView.setUint32`). -/
def setU32LE (buf : List Nat) (off : Nat) (v : Nat) : List Nat :=
  writeBytes buf off [v % 256, v / 256 % 256, v / 65536 % 256, v / 16777216 % 256]

/-- `DataView.setInt16`: two's-complement wrap of a signed value. -/
def setI16LE (buf : List Nat) (off : Nat) (v : ℤ) : List Nat :=
  setU16LE buf off (v.emod 65536).toNat

/-! ## IEEE-754 binary32 encoding of rationals

`DataView.setFloat32` narrows the given number to an IEEE-754 binary32
value.  The source only ever stores dyadic or decimal literals and the
validated user parameters, so we model the narrowing exactly: round to
nearest (ties to even) over the binary32 format. -/

/-- Round a rational to the nearest integer, ties to even. -/
def roundHalfEven (q : ℚ) : ℤ :=
  let n := ⌊q⌋
  let frac := q - (n : ℚ)
  if frac < 1/2 then n
  else if 1/2 < frac then n + 1
  else if n % 2 = 0 then n else n + 1

/-- The 32-bit pattern of the binary32 value nearest to `q`
(ties to even); subnormals and overflow to infinity included. -/
def f32bits (q : ℚ) : Nat :=
  if q = 0 then 0
  else
    let s : Nat := if q < 0 then 2 ^ 31 else 0
    let a : ℚ := |q|
    -- the binary32 normal exponents, from 127 down to -126
    match ((List.range 254).map (fun i => (127 : ℤ) - i)).find?
        (fun e => (2 : ℚ) ^ e ≤ a) with
    | some e =>
        let m := (roundHalfEven (a * (2 : ℚ) ^ ((23 : ℤ) - e))).toNat
        if m ≥ 2 ^ 24 then
          -- rounded up to the next binade
          if e + 1 > 127 then s + 0x7f800000
          else s + (e + 1 + 127).toNat * 2 ^ 23
        else s + (e + 127).toNat * 2 ^ 23 + (m - 2 ^ 23)
    | none =>
        -- |q| < 2^(-126): subnormal range (or rounds up to the least normal)
        let m := (roundHalfEven (a * (2 : ℚ) ^ (149 : ℕ))).toNat
        s + m

/-- Little-endian bytes of the binary32 encoding of `q`. -/
def f32leBytes (q : ℚ) : List Nat :=
  let n := f32bits q
  [n % 256, n / 256 % 256, n / 65536 % 256, n / 16777216 % 256]

/-- `DataView.setFloat32(off, q, true)`. -/
def setF32LE (buf : List Nat) (off : Nat) (q : ℚ) : List Nat :=
  writeBytes buf off (f32leBytes q)

/-! ## Validation helpers (`protocol.js` `assertRange` / `assertEnum` /
`assertColorArray`)

A JavaScript value that may be `undefined`/`null` is an `Option`; `none`
triggers the "required but missing" error exactly as in the source.
`ValidationError` is the error channel of the builders: the source throws
before any frame byte is produced, so the builders return `Except` with
validation running strictly before construction. -/

abbrev ValidationError := String

/-- `assertRange(value, min, max, label)` from `protocol.js`. -/
def assertRange (v : Option ℚ) (min max : ℚ) (label : String) :
    Except ValidationError Unit :=
  match v with
  | none => .error (label ++ " is required but missing or invalid")
  | some x =>
      if x < min ∨ max < x then
        .error (label ++ " outside valid range")
      else .ok ()

/-- `assertEnum(value, allowed, label)` from `protocol.js`; an absent
value is not in the allowed set, as in the source. -/
def assertEnum (v : Option Nat) (allowed : List Nat) (label : String) :
    Except ValidationError Unit :=
  match v with
  | none => .error (label ++ " not in allowed set")
  | some x =>
      if x ∈ allowed then .ok ()
      else .error (label ++ " not in allowed set")

/-- One RGB entry of a color scheme; channels may be absent. -/
structure ColorRGB where
  r : Option ℚ
  g : Option ℚ
  b : Option ℚ
deriving Repr, DecidableEq

/-- `assertColorArray(colors)` from `protocol.js`. -/
def assertColorArray (colors : List ColorRGB) : Except ValidationError Unit := do
  if colors.length ≠ 3 then
    throw "Color scheme requires exactly 3 colors"
  for c in colors do
    assertRange c.r 0 255 "red channel"
    assertRange c.g 0 255 "green channel"
    assertRange c.b 0 255 "blue channel"

/-! ## `modes.js`: mode profile blocks and Echo derived constants -/

/-- `getModeProfile(mode)`: the 32-byte mode-profile block.  Mode values
follow the `ProgramMode` enum: 0 = OLD_SCHOOL, 1 = PUMP, 2 = TUT,
3 = TUT_BEAST, 4 = JUST_LIFT (which shares the OLD_SCHOOL profile).
An unmatched mode leaves the zero-initialized buffer, as the JS switch. -/
def getModeProfile (mode : Nat) : List Nat :=
  let buf := List.replicate 32 0
  if mode = 0 ∨ mode = 4 then
    let b := setU16LE buf 0x00 0
    let b := setU16LE b 0x02 20
    let b := setF32LE b 0x04 3
    let b := setU16LE b 0x08 75
    let b := setU16LE b 0x0A 600
    let b := setF32LE b 0x0C 50
    let b := setI16LE b 0x10 (-1300)
    let b := setI16LE b 0x12 (-1200)
    let b := setF32LE b 0x14 100
    let b := setI16LE b 0x18 (-260)
    let b := setI16LE b 0x1A (-110)
    setF32LE b 0x1C 0
  else if mode = 1 then
    let b := setU16LE buf 0x00 50
    let b := setU16LE b 0x02 450
    let b := setF32LE b 0x04 10
    let b := setU16LE b 0x08 500
    let b := setU16LE b 0x0A 600
    let b := setF32LE b 0x0C 50
    let b := setI16LE b 0x10 (-700)
    let b := setI16LE b 0x12 (-550)
    let b := setF32LE b 0x14 1
    let b := setI16LE b 0x18 (-100)
    let b := setI16LE b 0x1A (-50)
    setF32LE b 0x1C 1
  else if mode = 2 then
    let b := setU16LE buf 0x00 250
    let b := setU16LE b 0x02 350
    let b := setF32LE b 0x04 7
    let b := setU16LE b 0x08 450
    let b := setU16LE b 0x0A 600
    let b := setF32LE b 0x0C 50
    let b := setI16LE b 0x10 (-900)
    let b := setI16LE b 0x12 (-700)
    let b := setF32LE b 0x14 70
    let b := setI16LE b 0x18 (-100)
    let b := setI16LE b 0x1A (-50)
    setF32LE b 0x1C 14
  else if mode = 3 then
    let b := setU16LE buf 0x00 150
    let b := setU16LE b 0x02 250
    let b := setF32LE b 0x04 7
    let b := setU16LE b 0x08 350
    let b := setU16LE b 0x0A 450
    let b := setF32LE b 0x0C 50
    let b := setI16LE b 0x10 (-900)
    let b := setI16LE b 0x12 (-700)
    let b := setF32LE b 0x14 70
    let b := setI16LE b 0x18 (-100)
    let b := setI16LE b 0x1A (-50)
    setF32LE b 0x1C 28
  else buf

/-- Derived Echo constants produced by `getEchoParams` in `modes.js`. -/
structure EchoDerived where
  eccentricPct : ℚ
  concentricPct : ℚ
  smoothing : ℚ
  floorQ : ℚ
  negLimit : ℚ
  gain : ℚ
  cap : ℚ
deriving Repr, DecidableEq

/-- `getEchoParams(level, eccentricPct)`: level → derived constants.
An absent level matches no switch case and keeps the defaults, exactly as
the JS `switch` over `undefined`. -/
def getEchoParams (level : Option ℚ) (eccentricPct : ℚ) : EchoDerived :=
  let base : EchoDerived :=
    { eccentricPct := eccentricPct, concentricPct := 50, smoothing := 1/10,
      floorQ := 0, negLimit := -100, gain := 1, cap := 50 }
  if level = some 0 then { base with gain := 1, cap := 50 }
  else if level = some 1 then { base with gain := 5/4, cap := 40 }
  else if level = some 2 then { base with gain := 1667/1000, cap := 30 }
  else if level = some 3 then { base with gain := 3333/1000, cap := 15 }
  else base

/-! ## `protocol.js`: frame builders

Each builder first runs all validations (the JS throws before the
`Uint8Array` is allocated), then constructs the fixed-size frame; this
two-phase structure is explicit here: `validateX` then `xFrame`. -/

/-- Parameters of `buildProgramParams`; absent (`undefined`/`null`)
fields are `none`. -/
structure ProgramParams where
  mode : Option Nat
  baseMode : Option Nat
  isJustLift : Bool
  reps : Option ℚ
  perCableKg : Option ℚ
  effectiveKg : Option ℚ
  progressionKg : Option ℚ
deriving Repr, DecidableEq

/-- The validation phase of `buildProgramParams` (source order). -/
def validateProgramParams (p : ProgramParams) : Except ValidationError Unit := do
  assertRange p.perCableKg 0 100 "Program perCableKg"
  assertRange p.effectiveKg 10 110 "Program effectiveKg"
  match p.progressionKg with
  | some _ => assertRange p.progressionKg (-3) 3 "Program progressionKg"
  | none => pure ()
  if !p.isJustLift then
    assertRange p.reps 1 100 "Program reps"
  assertEnum (if p.isJustLift then p.baseMode else p.mode) [0, 1, 2, 3, 4]
    "Program mode"

/-- The construction phase of `buildProgramParams`: the 96-byte frame.
Fields already validated as present are read with `getD`; the `getD`
defaults are unreachable on the `Except.ok` path. -/
def programFrame (p : ProgramParams) : List Nat :=
  let frame := List.replicate 96 0
  let frame := setByte frame 0 0x04
  let frame := setByte frame 1 0x00
  let frame := setByte frame 2 0x00
  let frame := setByte frame 3 0x00
  -- reps field: 0xFF sentinel for Just Lift, reps+3 otherwise
  let frame :=
    if p.isJustLift then setByte frame 0x04 0xff
    else setByte frame 0x04 (toU8 (p.reps.getD 0 + 3))
  let frame := setByte frame 5 0x03
  let frame := setByte frame 6 0x03
  let frame := setByte frame 7 0x00
  let frame := setF32LE frame 0x08 5
  let frame := setF32LE frame 0x0c 5
  let frame := setF32LE frame 0x1c 5
  let frame := setByte frame 0x14 0xfa
  let frame := setByte frame 0x15 0x00
  let frame := setByte frame 0x16 0xfa
  let frame := setByte frame 0x17 0x00
  let frame := setByte frame 0x18 0xc8
  let frame := setByte frame 0x19 0x00
  let frame := setByte frame 0x1a 0x1e
  let frame := setByte frame 0x1b 0x00
  let frame := setByte frame 0x24 0xfa
  let frame := setByte frame 0x25 0x00
  let frame := setByte frame 0x26 0xfa
  let frame := setByte frame 0x27 0x00
  let frame := setByte frame 0x28 0xc8
  let frame := setByte frame 0x29 0x00
  let frame := setByte frame 0x2a 0x1e
  let frame := setByte frame 0x2b 0x00
  let frame := setByte frame 0x2c 0xfa
  let frame := setByte frame 0x2d 0x00
  let frame := setByte frame 0x2e 0x50
  let frame := setByte frame 0x2f 0x00
  let profileMode := (if p.isJustLift then p.baseMode else p.mode).getD 0
  let frame := writeBytes frame 0x30 (getModeProfile profileMode)
  let frame := setF32LE frame 0x54 (p.effectiveKg.getD 0)
  let frame := setF32LE frame 0x58 (p.perCableKg.getD 0)
  -- `params.progressionKg || 0.0`: undefined, null and 0 all encode 0.0
  setF32LE frame 0x5c (p.progressionKg.getD 0)

/-- `buildProgramParams(params)` from `protocol.js`. -/
def buildProgramParams (p : ProgramParams) : Except ValidationError (List Nat) := do
  validateProgramParams p
  pure (programFrame p)

/-- Parameters of `buildEchoControl`. -/
structure EchoParams where
  level : Option ℚ
  eccentricPct : Option ℚ
  warmupReps : Option ℚ
  targetReps : Option ℚ
  isJustLift : Bool
deriving Repr, DecidableEq

/-- The validation phase of `buildEchoControl` (source order). -/
def validateEchoControl (p : EchoParams) : Except ValidationError Unit := do
  assertRange p.level 0 3 "Echo level"
  assertRange p.eccentricPct 0 150 "Echo eccentricPct"
  match p.warmupReps with
  | some _ => assertRange p.warmupReps 0 30 "Echo warmupReps"
  | none => pure ()
  if !p.isJustLift then
    match p.targetReps with
    | some _ => assertRange p.targetReps 0 30 "Echo targetReps"
    | none => pure ()

/-- The construction phase of `buildEchoControl`: the 32-byte frame. -/
def echoFrame (p : EchoParams) : List Nat :=
  let frame := List.replicate 32 0
  let frame := setU32LE frame 0x00 0x4e
  -- `params.warmupReps || 3`: undefined and 0 both fall back to 3
  let wu : ℚ := match p.warmupReps with
    | some w => if w = 0 then 3 else w
    | none => 3
  let frame := setByte frame 0x04 (toU8 wu)
  let frame :=
    if p.isJustLift then setByte frame 0x05 0xff
    else
      setByte frame 0x05 (match p.targetReps with
        | some t => toU8 t
        | none => toU8 2)
  let frame := setU16LE frame 0x06 0
  let ep := getEchoParams p.level (p.eccentricPct.getD 0)
  let frame := setU16LE frame 0x08 (toU16 ep.eccentricPct)
  let frame := setU16LE frame 0x0a (toU16 ep.concentricPct)
  let frame := setF32LE frame 0x0c ep.smoothing
  let frame := setF32LE frame 0x10 ep.gain
  let frame := setF32LE frame 0x14 ep.cap
  let frame := setF32LE frame 0x18 ep.floorQ
  setF32LE frame 0x1c ep.negLimit

/-- `buildEchoControl(params)` from `protocol.js`. -/
def buildEchoControl (p : EchoParams) : Except ValidationError (List Nat) := do
  validateEchoControl p
  pure (echoFrame p)

/-- The validation phase of `buildColorScheme`. -/
def validateColorScheme (brightness : Option ℚ) (colors : List ColorRGB) :
    Except ValidationError Unit := do
  assertRange brightness 0 1 "Color scheme brightness"
  assertColorArray colors

/-- The construction phase of `buildColorScheme`: the 34-byte frame. -/
def colorFrame (brightness : Option ℚ) (colors : List ColorRGB) : List Nat :=
  let frame := List.replicate 34 0
  let frame := setU32LE frame 0 0x11
  let frame := setU32LE frame 4 0
  let frame := setU32LE frame 8 0
  let frame := setF32LE frame 12 (brightness.getD 0)
  let triples := colors.flatMap
    (fun c => [toU8 (c.r.getD 0), toU8 (c.g.getD 0), toU8 (c.b.getD 0)])
  -- 3 colors repeated twice for left/right mirroring, from offset 16
  writeBytes frame 16 (triples ++ triples)

/-- `buildColorScheme(brightness, colors)` from `protocol.js`. -/
def buildColorScheme (brightness : Option ℚ) (colors : List ColorRGB) :
    Except ValidationError (List Nat) := do
  validateColorScheme brightness colors
  pure (colorFrame brightness colors)

/-! ## `app.js`: rep detector, auto-stop gate and workout lifecycle

The `VitruvianApp` state relevant to rep counting and auto-stop, with the
DOM/chart/logging fields omitted (they feed only the display).  Stateful
methods become explicit state-passing functions returning the new state
and the domain events they emit. -/

/-- The active workout record (`this.currentWorkout`); only the fields
the rep logic reads or archives are kept. -/
structure CurrentWorkout where
  targetRepsReq : Nat
  warmupEnded : Bool
deriving Repr, DecidableEq

/-- One archived history entry (`addToWorkoutHistory`): `reps` stores
`this.workingReps` at completion, `targetRepsReq` the requested target. -/
structure ArchivedWorkout where
  reps : Nat
  targetRepsReq : Nat
deriving Repr, DecidableEq

/-- Domain events emitted by the handlers; `log` stands for an
`addLogEntry` call, the others mark the safety-relevant actions. -/
inductive Event where
  | log
  | topDetected
  | bottomDetected
  | autoStopTriggered
  | stopCommandSent
  | sessionCompleted (reps : Nat)
deriving Repr, DecidableEq

/-- The `VitruvianApp` fields driving rep counting and auto-stop. -/
structure AppState where
  warmupReps : Nat
  workingReps : Nat
  warmupTarget : Nat
  targetReps : Nat
  stopAtTop : Bool
  isJustLiftMode : Bool
  currentWorkout : Option CurrentWorkout
  lastTopCounter : Option Nat
  lastRepCounter : Option Nat
  topPositionsA : List ℤ
  topPositionsB : List ℤ
  bottomPositionsA : List ℤ
  bottomPositionsB : List ℤ
  minRepPosA : Option ℤ
  maxRepPosA : Option ℤ
  minRepPosB : Option ℤ
  maxRepPosB : Option ℤ
  autoStopStartTime : Option ℤ
  currentSample : Option (ℤ × ℤ)
  history : List ArchivedWorkout
deriving Repr, DecidableEq

/-- `calculateAverage(arr)`: `Math.round` of the mean, `null` on empty.
`Math.round x = ⌊x + 1/2⌋`, which for an integer sum over `len` entries
is `⌊(2·sum + len) / (2·len)⌋` (the double division is exact enough on
the u16 position range that the ties land where the rationals say). -/
def calculateAverage (arr : List ℤ) : Option ℤ :=
  if arr = [] then none
  else some ((2 * arr.sum + arr.length).fdiv (2 * arr.length))

/-- `getWindowSize()`: 2 during warmup, 3 once working reps began. -/
def getWindowSize (s : AppState) : Nat :=
  if s.warmupReps + s.workingReps < s.warmupTarget then 2 else 3

/-- Push into a rolling window, dropping the oldest entry beyond the
window size (`push` then conditional `shift`). -/
def pushWindow (l : List ℤ) (w : Nat) (x : ℤ) : List ℤ :=
  let l2 := l ++ [x]
  if w < l2.length then l2.tail else l2

/-- `updateRepRanges()`: recompute calibrated min/max as the window
averages (the log-only uncertainty bands are omitted). -/
def updateRepRanges (s : AppState) : AppState :=
  { s with
    maxRepPosA := calculateAverage s.topPositionsA
    minRepPosA := calculateAverage s.bottomPositionsA
    maxRepPosB := calculateAverage s.topPositionsB
    minRepPosB := calculateAverage s.bottomPositionsB }

/-- `recordTopPosition(posA, posB)`. -/
def recordTopPosition (s : AppState) (posA posB : ℤ) : AppState :=
  let w := getWindowSize s
  updateRepRanges { s with
    topPositionsA := pushWindow s.topPositionsA w posA
    topPositionsB := pushWindow s.topPositionsB w posB }

/-- `recordBottomPosition(posA, posB)`. -/
def recordBottomPosition (s : AppState) (posA posB : ℤ) : AppState :=
  let w := getWindowSize s
  updateRepRanges { s with
    bottomPositionsA := pushWindow s.bottomPositionsA w posA
    bottomPositionsB := pushWindow s.bottomPositionsB w posB }

/-- `resetRepCountersToEmpty()`.  Note: the source clears
`lastTopCounter` but not `lastRepCounter`; the model reproduces this. -/
def resetRepCountersToEmpty (s : AppState) : AppState :=
  { s with
    warmupReps := 0
    workingReps := 0
    currentWorkout := none
    topPositionsA := []
    bottomPositionsA := []
    topPositionsB := []
    bottomPositionsB := []
    minRepPosA := none
    maxRepPosA := none
    minRepPosB := none
    maxRepPosB := none
    autoStopStartTime := none
    isJustLiftMode := false
    lastTopCounter := none }

/-- `completeWorkout()`: archive with the actual `workingReps`, then
reset (the poll-loop stops live in the device layer, outside this
state).  A `sessionCompleted` event marks the archival. -/
def completeWorkout (s : AppState) : AppState × List Event :=
  match s.currentWorkout with
  | none => (s, [])
  | some w =>
      let archived : ArchivedWorkout :=
        { reps := s.workingReps, targetRepsReq := w.targetRepsReq }
      (resetRepCountersToEmpty { s with history := archived :: s.history },
       [.sessionCompleted s.workingReps])

/-- `stopWorkout()`: send the STOP command, then complete the workout. -/
def stopWorkout (s : AppState) : AppState × List Event :=
  let (s2, evs) := completeWorkout s
  (s2, .stopCommandSent :: evs)

/-- The counter-delta computation of `handleRepNotification`
(both the top and the complete counter use the same formula). -/
def repDelta (prev next : Nat) : Nat :=
  if prev ≤ next then next - prev
  else 0xffff - prev + next + 1

/-- Decode a byte payload as an array of little-endian u16 values
(`new DataView(...).getUint16(i*2, true)` over `i < data.length/2`).
Payloads of odd length at least 8 would make the original throw a
`RangeError` on the final out-of-range read; every payload the claims
exercise has even length, where this model is exact. -/
def decodeU16LE (data : List Nat) : List Nat :=
  (List.range (data.length / 2)).map
    (fun i => data.getD (2 * i) 0 % 256 + 256 * (data.getD (2 * i + 1) 0 % 256))

/-- `handleRepNotification(data)` from `app.js` (part_001 lines
953-1107), as a function of the state and the raw payload. -/
def handleRepNotification (s : AppState) (data : List Nat) :
    AppState × List Event :=
  if data.length < 6 then (s, [])
  else
    let u16Values := decodeU16LE data
    if u16Values.length < 3 then (s, [])
    else
      let topCounter := u16Values.getD 0 0
      let completeCounter := u16Values.getD 2 0
      -- `addLogEntry("Rep notification: ...")`
      let evs0 : List Event := [.log]
      match s.currentSample, s.currentWorkout with
      | none, _ => (s, evs0)
      | some _, none => (s, evs0)
      | some (posA, posB), some _ =>
          -- top-of-range tracking (u16[0])
          let (s1, evs1) :=
            match s.lastTopCounter with
            | none => ({ s with lastTopCounter := some topCounter }, evs0)
            | some lastTop =>
                let topDelta := repDelta lastTop topCounter
                if 0 < topDelta then
                  let sA := recordTopPosition s posA posB
                  let sA := { sA with lastTopCounter := some topCounter }
                  if sA.stopAtTop ∧ ¬sA.isJustLiftMode ∧ 0 < sA.targetReps ∧
                      sA.workingReps = sA.targetReps - 1 then
                    -- top of the final rep: stop explicitly, then complete
                    let (sB, evsB) := stopWorkout sA
                    let (sC, evsC) := completeWorkout sB
                    (sC, evs0 ++ [Event.log, Event.topDetected] ++ evsB ++ evsC)
                  else (sA, evs0 ++ [Event.log, Event.topDetected])
                else (s, evs0)
          -- rep-complete / bottom-of-range tracking (u16[2])
          match s1.lastRepCounter with
          | none => ({ s1 with lastRepCounter := some completeCounter }, evs1)
          | some lastRep =>
              let delta := repDelta lastRep completeCounter
              if 0 < delta then
                let s2 := recordBottomPosition s1 posA posB
                let totalReps := s2.warmupReps + s2.workingReps + 1
                let (s3, evs3) :=
                  if totalReps ≤ s2.warmupTarget then
                    let s3 := { s2 with warmupReps := s2.warmupReps + 1 }
                    let s3 :=
                      if s3.warmupReps = s3.warmupTarget then
                        match s3.currentWorkout with
                        | some w =>
                            if ¬w.warmupEnded then
                              let w2 : CurrentWorkout := { w with warmupEnded := true }
                              { s3 with currentWorkout := some w2 }
                            else s3
                        | none => s3
                      else s3
                    (s3, evs1 ++ [Event.log, Event.bottomDetected])
                  else
                    let s3 := { s2 with workingReps := s2.workingReps + 1 }
                    if ¬s3.stopAtTop ∧ ¬s3.isJustLiftMode ∧ 0 < s3.targetReps ∧
                        s3.targetReps ≤ s3.workingReps then
                      let (s4, evs4) := completeWorkout s3
                      (s4, evs1 ++ [Event.log, Event.bottomDetected] ++ evs4)
                    else (s3, evs1 ++ [Event.log, Event.bottomDetected])
                ({ s3 with lastRepCounter := some completeCounter }, evs3)
              else ({ s1 with lastRepCounter := some completeCounter }, evs1)

/-- JavaScript truthiness of a nullable numeric field (`!x` is true for
both `null`/`undefined` and `0`). -/
def jsTruthy (v : Option ℤ) : Bool :=
  match v with
  | none => false
  | some x => x ≠ 0

/-- Numeric coercion of a nullable field in arithmetic (`null` → 0). -/
def optNum (v : Option ℤ) : ℚ :=
  match v with
  | none => 0
  | some x => (x : ℚ)

/-- Calibrated range of cable A as `checkAutoStop` computes it
(`this.maxRepPosA - this.minRepPosA`, with null coercing to 0). -/
def autoRangeA (s : AppState) : ℚ :=
  optNum s.maxRepPosA - optNum s.minRepPosA

/-- Calibrated range of cable B as `checkAutoStop` computes it. -/
def autoRangeB (s : AppState) : ℚ :=
  optNum s.maxRepPosB - optNum s.minRepPosB

/-- The danger-zone test of `checkAutoStop`: a cable with range above
the 50-unit noise floor whose current position is at or below 5% above
the calibrated minimum.  The source literal `0.05` is the exact rational
1/20 here; the positions and calibrated bounds are integers, so the
double arithmetic of the source agrees with ℚ away from ties. -/
def autoStopDanger (s : AppState) (posA posB : ℤ) : Bool :=
  (50 < autoRangeA s ∧ (posA : ℚ) ≤ optNum s.minRepPosA + autoRangeA s * (1/20)) ∨
  (50 < autoRangeB s ∧ (posB : ℚ) ≤ optNum s.minRepPosB + autoRangeB s * (1/20))

/-- `checkAutoStop(sample)` from `app.js` (part_001 lines 856-925).
`now` is `Date.now()` in milliseconds.  Returns the new state, the
progress fraction passed to `updateAutoStopUI`, and the emitted events;
the dwell test `elapsed >= 5.0` on seconds is the integer test
`now - start ≥ 5000` on milliseconds. -/
def checkAutoStop (s : AppState) (posA posB : ℤ) (now : ℤ) :
    AppState × ℚ × List Event :=
  if ¬jsTruthy s.minRepPosA ∧ ¬jsTruthy s.minRepPosB then (s, 0, [])
  else if ¬(50 < autoRangeA s) ∧ ¬(50 < autoRangeB s) then (s, 0, [])
  else if autoStopDanger s posA posB then
    let start := s.autoStopStartTime.getD now
    let s1 := { s with autoStopStartTime := some start }
    let elapsedMs := now - start
    let progress := min ((elapsedMs : ℚ) / 5000) 1
    if 5000 ≤ elapsedMs then
      let (s2, evs) := stopWorkout s1
      (s2, progress, Event.autoStopTriggered :: evs)
    else (s1, progress, [])
  else
    ({ s with autoStopStartTime := none }, 0, [])

/-- The auto-stop part of `updateLiveStats(sample)`: store the sample,
then run the gate only in Just-Lift mode (part_001 lines 396-427; the
chart/DOM updates are omitted). -/
def processMonitorSample (s : AppState) (posA posB : ℤ) (now : ℤ) :
    AppState × ℚ × List Event :=
  let s0 := { s with currentSample := some (posA, posB) }
  if s0.isJustLiftMode then checkAutoStop s0 posA posB now
  else (s0, 0, [])

/-- Fold `processMonitorSample` over a list of timestamped samples,
collecting all events. -/
def runMonitorSamples (s : AppState) : List (ℤ × ℤ × ℤ) → AppState × List Event
  | [] => (s, [])
  | (posA, posB, now) :: rest =>
      let (s1, _, evs1) := processMonitorSample s posA posB now
      let (s2, evs2) := runMonitorSamples s1 rest
      (s2, evs1 ++ evs2)

/-- Fold `handleRepNotification` over a list of payloads. -/
def runRepNotifications (s : AppState) : List (List Nat) → AppState × List Event
  | [] => (s, [])
  | d :: rest =>
      let (s1, evs1) := handleRepNotification s d
      let (s2, evs2) := runRepNotifications s1 rest
      (s2, evs1 ++ evs2)

/-- A 6-byte rep notification payload: u16[0] = top counter, u16[1]
unused, u16[2] = complete counter, little endian. -/
def repNotifBytes (top complete : Nat) : List Nat :=
  [top % 256, top / 256 % 256, 0, 0, complete % 256, complete / 256 % 256]

/-- Number of `sessionCompleted` events in an event list. -/
def countCompleted (evs : List Event) : Nat :=
  (evs.filter (fun e => match e with
    | .sessionCompleted _ => true
    | _ => false)).length

/-- Number of `autoStopTriggered` events in an event list. -/
def countTriggers (evs : List Event) : Nat :=
  (evs.filter (fun e => e = Event.autoStopTriggered)).length

/-- The state right after `startProgram`/`startEcho` reset the workout
state (part_001 lines 1219-1240): fresh counters, unset counter seeds,
an active workout, and a latest monitor sample `(posA, posB)`. -/
def sessionStart (warmupTarget targetReps : Nat) (stopAtTop isJustLift : Bool)
    (posA posB : ℤ) : AppState :=
  { warmupReps := 0
    workingReps := 0
    warmupTarget := warmupTarget
    targetReps := targetReps
    stopAtTop := stopAtTop
    isJustLiftMode := isJustLift
    currentWorkout := some { targetRepsReq := targetReps, warmupEnded := false }
    lastTopCounter := none
    lastRepCounter := none
    topPositionsA := []
    topPositionsB := []
    bottomPositionsA := []
    bottomPositionsB := []
    minRepPosA := none
    maxRepPosA := none
    minRepPosB := none
    maxRepPosB := none
    autoStopStartTime := none
    currentSample := some (posA, posB)
    history := [] }

/-- Invariant of the C3 synthetic trace during the warmup phase: k
warmup reps counted, counter seeds observed, workout active, warmup not
yet ended (the position buffers and calibrated ranges are irrelevant to
the detector's control flow and left unconstrained). -/
def c3InvW (s : AppState) (N k : Nat) : Prop :=
  s.warmupReps = k ∧ s.workingReps = 0 ∧ s.warmupTarget = 3 ∧
  s.targetReps = N ∧ s.stopAtTop = false ∧ s.isJustLiftMode = false ∧
  s.currentWorkout = some { targetRepsReq := N, warmupEnded := false } ∧
  s.lastTopCounter = some 5 ∧ s.lastRepCounter = some k ∧
  s.currentSample = some (500, 500) ∧ s.history = []

/-- Invariant of the C3 synthetic trace during the working phase: warmup
done, j working reps counted, complete-counter seed at (3+j) mod 2^16. -/
def c3Inv (s : AppState) (N j : Nat) : Prop :=
  s.warmupReps = 3 ∧ s.workingReps = j ∧ s.warmupTarget = 3 ∧
  s.targetReps = N ∧ s.stopAtTop = false ∧ s.isJustLiftMode = false ∧
  s.currentWorkout = some { targetRepsReq := N, warmupEnded := true } ∧
  s.lastTopCounter = some 5 ∧ s.lastRepCounter = some ((3 + j) % 65536) ∧
  s.currentSample = some (500, 500) ∧ s.history = []

/-! ## GATT operation queue

Modelled from the spec: the `queueGattOperation` single-flight FIFO
queue of `device.js` is documented (docs/API-MAP.md, spec section 4.3)
but its source is not part of this snapshot.  Following the spec's
words: all operations touching the physical link pass through a
single-flight FIFO queue; only one GATT operation may be in flight at a
time; concurrent callers block until their turn; the next operation
starts only after the previous one's acknowledgment (or failure)
resolves.  The wire is a trace of per-operation byte transmissions
followed by a resolution marker. -/

/-- An observable event on the physical link: one transmitted byte of an
operation, or the operation's resolution (acknowledgment or failure). -/
inductive WireEv where
  | byte (op : Nat) (b : Nat)
  | ack (op : Nat)
deriving Repr, DecidableEq

/-- The operation an event belongs to. -/
def WireEv.op : WireEv → Nat
  | .byte o _ => o
  | .ack o => o

/-- Modelled from the spec: the queue state of `queueGattOperation` —
pending FIFO entries, at most one in-flight operation (its id, the bytes
already on the wire, and the bytes still to send), the wire trace, and
the submission order (ids are unique per submission). -/
structure QueueState where
  pending : List (Nat × List Nat)
  inflight : Option (Nat × List Nat × List Nat)
  wire : List WireEv
  submitted : List Nat
deriving Repr, DecidableEq

/-- Modelled from the spec: the atomic steps of the single-flight FIFO
queue.  A new operation may be submitted at any time; an operation
starts only when nothing is in flight, and only from the queue head; its
bytes go on the wire one at a time; its resolution frees the queue. -/
inductive QStep : QueueState → QueueState → Prop where
  | submit (s : QueueState) (id : Nat) (bytes : List Nat)
      (h : id ∉ s.submitted) :
      QStep s { s with pending := s.pending ++ [(id, bytes)],
                       submitted := s.submitted ++ [id] }
  | start (s : QueueState) (id : Nat) (bytes : List Nat)
      (rest : List (Nat × List Nat))
      (h1 : s.inflight = none) (h2 : s.pending = (id, bytes) :: rest) :
      QStep s { s with pending := rest, inflight := some (id, [], bytes) }
  | tx (s : QueueState) (id : Nat) (sent : List Nat) (b : Nat)
      (bs : List Nat) (h : s.inflight = some (id, sent, b :: bs)) :
      QStep s { s with inflight := some (id, sent ++ [b], bs),
                       wire := s.wire ++ [.byte id b] }
  | resolve (s : QueueState) (id : Nat) (sent : List Nat)
      (h : s.inflight = some (id, sent, [])) :
      QStep s { s with inflight := none, wire := s.wire ++ [.ack id] }

/-- The initial, empty queue. -/
def QueueState.init : QueueState :=
  { pending := [], inflight := none, wire := [], submitted := [] }

/-- States reachable from the empty queue. -/
inductive QReach : QueueState → Prop where
  | init : QReach QueueState.init
  | step {s t : QueueState} : QReach s → QStep s t → QReach t

/-- The ProgramParams instance of the spec's build scenario:
perCableKg 10, effectiveKg 20, progressionKg 1, reps 8, baseMode
OLD_SCHOOL (0), not Just Lift. -/
def scenarioProgramParams : ProgramParams :=
  { mode := some 0, baseMode := some 0, isJustLift := false, reps := some 8,
    perCableKg := some 10, effectiveKg := some 20, progressionKg := some 1 }

/-- The EchoParams instance used to witness C5. -/
def witnessEchoParams : EchoParams :=
  { level := some 1, eccentricPct := some 50, warmupReps := some 3,
    targetReps := some 5, isJustLift := false }

/-! ## Helper lemmas -/

@[simp]
theorem writeBytes_length (bs : List Nat) (buf : List Nat) (off : Nat) :
    (writeBytes buf off bs).length = buf.length := by
  induction bs generalizing buf off with
  | nil => rfl
  | cons b rest ih => simp [writeBytes, ih]

@[simp]
theorem setByte_length (buf : List Nat) (off v : Nat) :
    (setByte buf off v).length = buf.length := by
  simp [setByte]

@[simp]
theorem setU16LE_length (buf : List Nat) (off v : Nat) :
    (setU16LE buf off v).length = buf.length := by
  simp [setU16LE]

@[simp]
theorem setU32LE_length (buf : List Nat) (off v : Nat) :
    (setU32LE buf off v).length = buf.length := by
  simp [setU32LE]

@[simp]
theorem setI16LE_length (buf : List Nat) (off : Nat) (v : ℤ) :
    (setI16LE buf off v).length = buf.length := by
  simp [setI16LE]

@[simp]
theorem setF32LE_length (buf : List Nat) (off : Nat) (q : ℚ) :
    (setF32LE buf off q).length = buf.length := by
  simp [setF32LE]

theorem programFrame_length (p : ProgramParams) :
    (programFrame p).length = 96 := by
  unfold programFrame
  split <;> simp

theorem echoFrame_length (p : EchoParams) :
    (echoFrame p).length = 32 := by
  unfold echoFrame
  split <;> simp [apply_ite List.length]

theorem colorFrame_length (b : Option ℚ) (c : List ColorRGB) :
    (colorFrame b c).length = 34 := by
  unfold colorFrame
  simp

theorem buildProgramParams_ok (p : ProgramParams) (f : List Nat)
    (h : buildProgramParams p = .ok f) : f = programFrame p := by
  unfold buildProgramParams at h
  cases hv : validateProgramParams p <;>
    simp [hv, Bind.bind, Except.bind, pure, Except.pure] at h
  exact h.symm

theorem buildEchoControl_ok (p : EchoParams) (f : List Nat)
    (h : buildEchoControl p = .ok f) : f = echoFrame p := by
  unfold buildEchoControl at h
  cases hv : validateEchoControl p <;>
    simp [hv, Bind.bind, Except.bind, pure, Except.pure] at h
  exact h.symm

theorem buildColorScheme_ok (b : Option ℚ) (c : List ColorRGB) (f : List Nat)
    (h : buildColorScheme b c = .ok f) : f = colorFrame b c := by
  unfold buildColorScheme at h
  cases hv : validateColorScheme b c <;>
    simp [hv, Bind.bind, Except.bind, pure, Except.pure] at h
  exact h.symm

/-! ## Claim theorems -/

set_option maxRecDepth 40000 in
/-- **C5** — For every valid ProgramParams/EchoParams/ColorScheme input,
the frame builder returns a byte sequence whose length exactly equals
the documented size for its kind (96, 32, 34 bytes); and the scenario
`buildProgramParams` with perCableKg 10, effectiveKg 20, progressionKg 1,
reps 8, baseMode OLD_SCHOOL, not Just Lift, returns a 96-byte frame with
byte 4 equal to 11 and the little-endian float32 at offset 0x58 equal to
10.0 (IEEE-754 binary32 bytes `00 00 20 41`). -/
theorem C5_frame_builder_sizes :
    (∀ p f, buildProgramParams p = .ok f → f.length = 96) ∧
    (∀ p f, buildEchoControl p = .ok f → f.length = 32) ∧
    (∀ b c f, buildColorScheme b c = .ok f → f.length = 34) ∧
    (∃ f, buildProgramParams scenarioProgramParams = .ok f ∧
      f.length = 96 ∧ f.getD 4 0 = 11 ∧
      (f.drop 0x58).take 4 = [0x00, 0x00, 0x20, 0x41] ∧
      (f.drop 0x58).take 4 = f32leBytes 10) := by
  refine ⟨?_, ?_, ?_, ?_⟩
  · intro p f h
    rw [buildProgramParams_ok p f h]
    exact programFrame_length p
  · intro p f h
    rw [buildEchoControl_ok p f h]
    exact echoFrame_length p
  · intro b c f h
    rw [buildColorScheme_ok b c f h]
    exact colorFrame_length b c
  · refine ⟨programFrame scenarioProgramParams, by rfl, ?_, ?_, ?_, ?_⟩
    · exact programFrame_length _
    · decide
    · decide
    · decide

set_option maxRecDepth 40000 in
/-- Witness for C5: the builders evaluated at the concrete scenario
inputs, discharging the `Except.ok` hypotheses there. -/
theorem C5_frame_builder_sizes_witness :
    buildEchoControl witnessEchoParams = .ok (echoFrame witnessEchoParams) ∧
    (echoFrame witnessEchoParams).length = 32 :=
  ⟨by rfl, C5_frame_builder_sizes.2.1 witnessEchoParams
    (echoFrame witnessEchoParams) (by rfl)⟩

/-- **C6** — For every input violating a documented range (perCableKg
150, eccentricPct -1, a colors array of length 2, a mode outside the
enum), the frame builder returns a `ValidationError` (the builders have
no other error channel), and the error always arises in the validation
phase, which runs strictly before any frame byte is written, so no
partial frame is ever produced. -/
theorem C6_validation_rejects :
    (∀ p, p.perCableKg = some 150 → ∃ e, buildProgramParams p = .error e) ∧
    (∀ p, p.eccentricPct = some (-1) → ∃ e, buildEchoControl p = .error e) ∧
    (∀ b c, c.length = 2 → ∃ e, buildColorScheme b c = .error e) ∧
    (∀ p m, (if p.isJustLift then p.baseMode else p.mode) = some m →
      m ∉ ([0, 1, 2, 3, 4] : List Nat) → ∃ e, buildProgramParams p = .error e) ∧
    (∀ p e, buildProgramParams p = .error e → validateProgramParams p = .error e) ∧
    (∀ p e, buildEchoControl p = .error e → validateEchoControl p = .error e) ∧
    (∀ b c e, buildColorScheme b c = .error e → validateColorScheme b c = .error e) := by
  refine ⟨?_, ?_, ?_, ?_, ?_, ?_, ?_⟩
  · intro p h
    refine ⟨"Program perCableKg outside valid range", ?_⟩
    unfold buildProgramParams validateProgramParams
    rw [h]
    rfl
  · intro p h
    cases hl : assertRange p.level 0 3 "Echo level" with
    | error e =>
        refine ⟨e, ?_⟩
        unfold buildEchoControl validateEchoControl
        simp [hl, Bind.bind, Except.bind]
    | ok u =>
        cases u
        refine ⟨"Echo eccentricPct outside valid range", ?_⟩
        unfold buildEchoControl validateEchoControl
        rw [h]
        simp [hl, Bind.bind, Except.bind]
        rfl
  · intro b c h
    cases hb : assertRange b 0 1 "Color scheme brightness" with
    | error e =>
        refine ⟨e, ?_⟩
        unfold buildColorScheme validateColorScheme
        simp [hb, Bind.bind, Except.bind]
    | ok u =>
        cases u
        refine ⟨"Color scheme requires exactly 3 colors", ?_⟩
        unfold buildColorScheme validateColorScheme assertColorArray
        rw [h]
        simp [hb, Bind.bind, Except.bind]
  · intro p m hm hnot
    cases h1 : assertRange p.perCableKg 0 100 "Program perCableKg" with
    | error e =>
        refine ⟨e, ?_⟩
        unfold buildProgramParams validateProgramParams
        simp [h1, Bind.bind, Except.bind]
    | ok u1 =>
      cases u1
      cases h2 : assertRange p.effectiveKg 10 110 "Program effectiveKg" with
      | error e =>
          refine ⟨e, ?_⟩
          unfold buildProgramParams validateProgramParams
          simp [h1, h2, Bind.bind, Except.bind]
      | ok u2 =>
        cases u2
        unfold buildProgramParams validateProgramParams
        simp only [Bind.bind, Except.bind, h1, h2]
        cases hj : p.isJustLift with
        | true =>
            simp [hj] at hm
            rcases hpg : p.progressionKg with _ | q
            · simp [hpg, hj, hm, assertEnum, hnot, pure, Except.pure]
            · cases h3 : assertRange (some q) (-3) 3 "Program progressionKg" with
              | error e => simp [hpg, hj, h3, pure, Except.pure]
              | ok u3 =>
                  cases u3
                  simp [hpg, hj, h3, hm, assertEnum, hnot, pure, Except.pure]
        | false =>
            simp [hj] at hm
            rcases hpg : p.progressionKg with _ | q
            · cases h4 : assertRange p.reps 1 100 "Program reps" with
              | error e => simp [hpg, hj, h4, pure, Except.pure]
              | ok u4 =>
                  cases u4
                  simp [hpg, hj, h4, hm, assertEnum, hnot, pure, Except.pure]
            · cases h3 : assertRange (some q) (-3) 3 "Program progressionKg" with
              | error e => simp [hpg, hj, h3, pure, Except.pure]
              | ok u3 =>
                cases u3
                cases h4 : assertRange p.reps 1 100 "Program reps" with
                | error e => simp [hpg, hj, h3, h4, pure, Except.pure]
                | ok u4 =>
                    cases u4
                    simp [hpg, hj, h3, h4, hm, assertEnum, hnot, pure, Except.pure]
  · intro p e h
    cases hv : validateProgramParams p with
    | error e2 =>
        unfold buildProgramParams at h
        simp [hv, Bind.bind, Except.bind] at h
        rw [h]
    | ok u =>
        cases u
        unfold buildProgramParams at h
        simp [hv, Bind.bind, Except.bind, pure, Except.pure] at h
  · intro p e h
    cases hv : validateEchoControl p with
    | error e2 =>
        unfold buildEchoControl at h
        simp [hv, Bind.bind, Except.bind] at h
        rw [h]
    | ok u =>
        cases u
        unfold buildEchoControl at h
        simp [hv, Bind.bind, Except.bind, pure, Except.pure] at h
  · intro b c e h
    cases hv : validateColorScheme b c with
    | error e2 =>
        unfold buildColorScheme at h
        simp [hv, Bind.bind, Except.bind] at h
        rw [h]
    | ok u =>
        cases u
        unfold buildColorScheme at h
        simp [hv, Bind.bind, Except.bind, pure, Except.pure] at h

/-- Witness for C6: the rejections evaluated at concrete out-of-range
inputs. -/
theorem C6_validation_rejects_witness :
    (∃ e, buildProgramParams
      { scenarioProgramParams with perCableKg := some 150 } = .error e) ∧
    (∃ e, buildEchoControl
      { witnessEchoParams with eccentricPct := some (-1) } = .error e) ∧
    (∃ e, buildColorScheme (some (2/5))
      [⟨some 255, some 0, some 76⟩, ⟨some 255, some 35, some 140⟩] = .error e) ∧
    (∃ e, buildProgramParams
      { scenarioProgramParams with mode := some 9 } = .error e) :=
  ⟨C6_validation_rejects.1 _ rfl,
   C6_validation_rejects.2.1 _ rfl,
   C6_validation_rejects.2.2.1 _ _ rfl,
   C6_validation_rejects.2.2.2.1 _ 9 rfl (by decide)⟩

/-- The binary32 encoding of 0 is four zero bytes. -/
theorem f32leBytes_zero : f32leBytes 0 = [0, 0, 0, 0] := rfl

/-- **C10** — `buildProgramParams` accepts a params object whose
progressionKg is undefined or null without throwing: the progression
field is range-checked only when present (an absent one behaves exactly
like the in-range value 0), and an absent progressionKg is silently
encoded as float32 0.0 (four zero bytes) at offset 0x5C of the frame. -/
theorem C10_progression_optional :
    (∀ p, p.progressionKg = none →
      buildProgramParams p =
        buildProgramParams { p with progressionKg := some 0 }) ∧
    (∀ p f, p.progressionKg = none → buildProgramParams p = .ok f →
      f[0x5c]? = some 0 ∧ f[0x5d]? = some 0 ∧ f[0x5e]? = some 0 ∧
      f[0x5f]? = some 0 ∧ f32leBytes 0 = [0, 0, 0, 0]) := by
  constructor
  · intro p hpg
    unfold buildProgramParams validateProgramParams programFrame
    simp only [hpg]
    rfl
  · intro p f hpg hok
    rw [buildProgramParams_ok p f hok]
    unfold programFrame
    simp only [hpg, Option.getD, setF32LE, f32leBytes_zero, writeBytes]
    refine ⟨?_, ?_, ?_, ?_, ?_⟩ <;>
      simp [List.getElem?_set_ne, List.getElem?_set_self,
        apply_ite List.length, f32bits]

set_option maxRecDepth 40000 in
/-- Witness for C10: a concrete params object with absent progressionKg
accepted and encoding zero bytes at 0x5C. -/
theorem C10_progression_optional_witness :
    buildProgramParams { scenarioProgramParams with progressionKg := none } =
      buildProgramParams { scenarioProgramParams with progressionKg := some 0 } ∧
    (programFrame { scenarioProgramParams with progressionKg := none })[0x5c]? =
      some 0 :=
  ⟨C10_progression_optional.1 _ rfl,
   (C10_progression_optional.2
      { scenarioProgramParams with progressionKg := none }
      (programFrame { scenarioProgramParams with progressionKg := none })
      rfl (by rfl)).1⟩

/-- **C2** — For all uint16 counter values prev and next, the
rep-counter delta of `handleRepNotification` equals `next - prev` when
`next ≥ prev` and `0xFFFF - prev + next + 1` otherwise — equivalently,
the difference `next - prev` modulo 2^16 — with the concrete values
delta(65534, 2) = 4, delta(5, 5) = 0 and delta(0, 0xFFFF) = 0xFFFF. -/
theorem C2_counter_delta_wraparound :
    (∀ prev next : Nat, prev < 65536 → next < 65536 →
      repDelta prev next =
        (if prev ≤ next then next - prev else 0xffff - prev + next + 1) ∧
      repDelta prev next = (65536 + next - prev) % 65536) ∧
    repDelta 65534 2 = 4 ∧ repDelta 5 5 = 0 ∧ repDelta 0 0xffff = 0xffff := by
  refine ⟨?_, by decide, by decide, by decide⟩
  intro prev next hp hn
  refine ⟨rfl, ?_⟩
  unfold repDelta
  split <;> omega

/-- Witness for C2: the wraparound characterization applied at the
concrete pair (65534, 2). -/
theorem C2_counter_delta_wraparound_witness :
    repDelta 65534 2 = (65536 + 2 - 65534) % 65536 :=
  (C2_counter_delta_wraparound.1 65534 2 (by decide) (by decide)).2

/-- **C8** (amended) — A rep notification payload shorter than 6 bytes
makes `handleRepNotification` return immediately: the state is
unchanged and no event at all is emitted — no rep counter is updated
and the handler cannot crash the poll loop, but, contrary to the
original claim, nothing is logged and no error of any kind is raised
(the source has no `MalformedPayloadError`; it silently drops the
payload). -/
theorem C8_short_payload_dropped :
    ∀ (s : AppState) (data : List Nat), data.length < 6 →
      handleRepNotification s data = (s, []) := by
  intro s data h
  unfold handleRepNotification
  simp [h]

/-- Counterexample for C8 as stated: a 4-byte payload produces no log
event and no error signal of any kind — the event list is empty and the
state unchanged, so the payload is not "dropped and logged" and no
`MalformedPayloadError` is reported (a processed payload, by contrast,
emits at least a `log` event). -/
theorem C8_short_payload_counterexample :
    handleRepNotification (sessionStart 3 5 false false 500 500) [1, 2, 3, 4] =
      (sessionStart 3 5 false false 500 500, []) ∧
    (handleRepNotification (sessionStart 3 5 false false 500 500)
      (repNotifBytes 1 1)).2 ≠ [] := by
  constructor
  · rfl
  · decide

/-- Witness for C8: the early return applied at a concrete short
payload. -/
theorem C8_short_payload_dropped_witness :
    handleRepNotification (sessionStart 3 2 false false 400 400) [0, 0, 0] =
      (sessionStart 3 2 false false 400 400, []) :=
  C8_short_payload_dropped (sessionStart 3 2 false false 400 400) [0, 0, 0]
    (by decide)

/-- **C7** (amended) — After every session completion (the single
`completeWorkout` path serves both normal completion and the
STOP-triggered one), the session is archived with its actual
`workingReps` count (not the requested target), and the rep-counter
state is reset: warmup and working counts, the four position buffers,
the calibrated min/max of both cables, the auto-stop timestamp, the
Just-Lift flag and the top-counter seed all return to their initial
unset condition — but, contrary to the original claim, the
complete-counter seed (`lastRepCounter`) is NOT cleared: it keeps its
value until the next session start. -/
theorem C7_completion_archive_reset :
    ∀ (s : AppState) (w : CurrentWorkout), s.currentWorkout = some w →
      ∃ s2, completeWorkout s = (s2, [Event.sessionCompleted s.workingReps]) ∧
        s2.history =
          { reps := s.workingReps, targetRepsReq := w.targetRepsReq } :: s.history ∧
        s2.warmupReps = 0 ∧ s2.workingReps = 0 ∧ s2.currentWorkout = none ∧
        s2.topPositionsA = [] ∧ s2.topPositionsB = [] ∧
        s2.bottomPositionsA = [] ∧ s2.bottomPositionsB = [] ∧
        s2.minRepPosA = none ∧ s2.maxRepPosA = none ∧
        s2.minRepPosB = none ∧ s2.maxRepPosB = none ∧
        s2.autoStopStartTime = none ∧ s2.isJustLiftMode = false ∧
        s2.lastTopCounter = none ∧
        s2.lastRepCounter = s.lastRepCounter := by
  intro s w h
  refine ⟨_, by rw [completeWorkout, h], ?_⟩
  simp [resetRepCountersToEmpty]

/-- Counterexample for C7 as stated: completing a workout from a state
whose complete-counter seed is 9 leaves `lastRepCounter = some 9` — the
seed is not reset to its unset condition. -/
theorem C7_completion_counterexample :
    (completeWorkout { sessionStart 3 5 false false 500 500 with
        lastRepCounter := some 9 }).1.lastRepCounter = some 9 := by
  rfl

/-- Witness for C7: the amended reset property applied at a concrete
completed session. -/
theorem C7_completion_archive_reset_witness :
    (completeWorkout { sessionStart 3 5 false false 500 500 with
        lastRepCounter := some 9 }).1.lastTopCounter = none := by
  obtain ⟨s2, heq, hrest⟩ := C7_completion_archive_reset
    { sessionStart 3 5 false false 500 500 with lastRepCounter := some 9 }
    { targetRepsReq := 5, warmupEnded := false } rfl
  rw [heq]
  exact hrest.2.2.2.2.2.2.2.2.2.2.2.2.2.2.1

/-- A synthetic rep notification payload is 6 bytes long. -/
theorem repNotifBytes_length (a b : Nat) : (repNotifBytes a b).length = 6 := rfl

/-- Decoding a synthetic 6-byte rep notification recovers the two
counters. -/
theorem decode_repNotifBytes (top complete : Nat)
    (h1 : top < 65536) (h2 : complete < 65536) :
    decodeU16LE (repNotifBytes top complete) = [top, 0, complete] := by
  unfold decodeU16LE repNotifBytes
  simp [List.range_succ, List.getD]
  constructor <;> omega

/-- The wraparound delta of two successive u16 counter values is 1. -/
theorem repDelta_succ (c : Nat) (h : c < 65536) :
    repDelta c ((c + 1) % 65536) = 1 := by
  unfold repDelta
  split <;> omega

/-- **C4** — With the stop-at-top variant configured (stopAtTop set, not
Just Lift, targetReps = N > 0), session completion is signaled on the
top event that arrives while workingReps = N - 1: that notification
emits the explicit stop command and exactly one session completion, and
closes the workout.  A rep-complete (bottom) event in the same state
increments workingReps but does not complete the session — the
bottom-completion branch is disabled while stopAtTop is set — so
completion happens at the top, not at the bottom of the final rep. -/
theorem C4_stop_at_top :
    ∀ (s : AppState) (N t c : Nat) (w : CurrentWorkout) (pA pB : ℤ),
      s.stopAtTop = true → s.isJustLiftMode = false →
      s.targetReps = N → 0 < N → s.workingReps = N - 1 →
      s.currentWorkout = some w → s.currentSample = some (pA, pB) →
      s.lastTopCounter = some t → t < 65535 →
      s.lastRepCounter = some c → c < 65536 →
      s.warmupTarget ≤ s.warmupReps + s.workingReps →
      ((handleRepNotification s (repNotifBytes (t + 1) c)).2 =
        [Event.log, Event.log, Event.topDetected, Event.stopCommandSent,
         Event.sessionCompleted (N - 1)] ∧
       countCompleted (handleRepNotification s (repNotifBytes (t + 1) c)).2 = 1 ∧
       (handleRepNotification s (repNotifBytes (t + 1) c)).1.currentWorkout = none) ∧
      (countCompleted
          (handleRepNotification s (repNotifBytes t ((c + 1) % 65536))).2 = 0 ∧
       (handleRepNotification s
          (repNotifBytes t ((c + 1) % 65536))).1.workingReps =
         s.workingReps + 1) := by
  intro s N t c w pA pB hTop hJL hTarget hNpos hWork hW hSample hLast hT
    hLastRep hC hWarm
  constructor
  · have hdec := decode_repNotifBytes (t + 1) c (by omega) hC
    have hdelta : repDelta t (t + 1) = 1 := by unfold repDelta; split <;> omega
    have hdelta0 : repDelta c c = 0 := by unfold repDelta; split <;> omega
    refine ⟨?_, ?_, ?_⟩ <;>
    · unfold handleRepNotification
      simp only [hdec, repNotifBytes_length, hSample, hW, hLast, hLastRep,
        List.getD, hdelta, hdelta0, recordTopPosition, updateRepRanges,
        stopWorkout, completeWorkout, resetRepCountersToEmpty, hTop, hJL,
        hTarget, hWork]
      simp [hdelta, hdelta0, hNpos, countCompleted]
  · have hdec := decode_repNotifBytes t ((c + 1) % 65536) (by omega) (by omega)
    have hdelta : repDelta t t = 0 := by unfold repDelta; split <;> omega
    have hdelta1 := repDelta_succ c hC
    have hnw : ¬(s.warmupReps + s.workingReps + 1 ≤ s.warmupTarget) := by omega
    constructor <;>
    · unfold handleRepNotification
      simp [hdec, repNotifBytes_length, hSample, hW, hLast, hLastRep, List.getD,
        hdelta, hdelta1, hnw, recordBottomPosition, updateRepRanges,
        completeWorkout, hTop, hJL, hTarget, countCompleted]

/-- Witness for C4: the stop-at-top completion evaluated at a concrete
state one rep short of a 4-rep target. -/
theorem C4_stop_at_top_witness :
    countCompleted
      (handleRepNotification
        { sessionStart 3 4 true false 500 500 with
            warmupReps := 3, workingReps := 3,
            lastTopCounter := some 7, lastRepCounter := some 9 }
        (repNotifBytes 8 9)).2 = 1 :=
  (C4_stop_at_top
    { sessionStart 3 4 true false 500 500 with
        warmupReps := 3, workingReps := 3,
        lastTopCounter := some 7, lastRepCounter := some 9 }
    4 7 9 { targetRepsReq := 4, warmupEnded := false } 500 500
    rfl rfl rfl (by decide) rfl rfl rfl rfl (by decide) rfl (by decide)
    (by decide)).1.2.1

theorem c3seed (N : Nat) :
    c3InvW (handleRepNotification (sessionStart 3 N false false 500 500)
      (repNotifBytes 5 0)).1 N 0 ∧
    countCompleted (handleRepNotification (sessionStart 3 N false false 500 500)
      (repNotifBytes 5 0)).2 = 0 := by
  have hdec := decode_repNotifBytes 5 0 (by omega) (by omega)
  unfold handleRepNotification
  simp [hdec, repNotifBytes_length, List.getD, sessionStart, c3InvW,
    countCompleted]

theorem c3warm0 (s : AppState) (N : Nat) (h : c3InvW s N 0) :
    c3InvW (handleRepNotification s (repNotifBytes 5 1)).1 N 1 ∧
    countCompleted (handleRepNotification s (repNotifBytes 5 1)).2 = 0 := by
  obtain ⟨h1, h2, h3, h4, h5, h6, h7, h8, h9, h10, h11⟩ := h
  have hdec := decode_repNotifBytes 5 1 (by omega) (by omega)
  have hd0 : repDelta 5 5 = 0 := by decide
  have hd1 : repDelta 0 1 = 1 := by decide
  unfold handleRepNotification
  simp [hdec, repNotifBytes_length, List.getD, hd0, hd1, h1, h2, h3, h4, h5,
    h6, h7, h8, h9, h10, h11, recordBottomPosition, updateRepRanges,
    getWindowSize, c3InvW, countCompleted]

theorem c3warm1 (s : AppState) (N : Nat) (h : c3InvW s N 1) :
    c3InvW (handleRepNotification s (repNotifBytes 5 2)).1 N 2 ∧
    countCompleted (handleRepNotification s (repNotifBytes 5 2)).2 = 0 := by
  obtain ⟨h1, h2, h3, h4, h5, h6, h7, h8, h9, h10, h11⟩ := h
  have hdec := decode_repNotifBytes 5 2 (by omega) (by omega)
  have hd0 : repDelta 5 5 = 0 := by decide
  have hd1 : repDelta 1 2 = 1 := by decide
  unfold handleRepNotification
  simp [hdec, repNotifBytes_length, List.getD, hd0, hd1, h1, h2, h3, h4, h5,
    h6, h7, h8, h9, h10, h11, recordBottomPosition, updateRepRanges,
    getWindowSize, c3InvW, countCompleted]

theorem c3warm2 (s : AppState) (N : Nat) (h : c3InvW s N 2) :
    c3Inv (handleRepNotification s (repNotifBytes 5 3)).1 N 0 ∧
    countCompleted (handleRepNotification s (repNotifBytes 5 3)).2 = 0 := by
  obtain ⟨h1, h2, h3, h4, h5, h6, h7, h8, h9, h10, h11⟩ := h
  have hdec := decode_repNotifBytes 5 3 (by omega) (by omega)
  have hd0 : repDelta 5 5 = 0 := by decide
  have hd1 : repDelta 2 3 = 1 := by decide
  unfold handleRepNotification
  simp [hdec, repNotifBytes_length, List.getD, hd0, hd1, h1, h2, h3, h4, h5,
    h6, h7, h8, h9, h10, h11, recordBottomPosition, updateRepRanges,
    getWindowSize, c3Inv, countCompleted]

theorem c3work (s : AppState) (N j : Nat) (h : c3Inv s N j) (hj : j + 1 < N) :
    c3Inv (handleRepNotification s
      (repNotifBytes 5 ((4 + j) % 65536))).1 N (j + 1) ∧
    countCompleted (handleRepNotification s
      (repNotifBytes 5 ((4 + j) % 65536))).2 = 0 := by
  obtain ⟨h1, h2, h3, h4, h5, h6, h7, h8, h9, h10, h11⟩ := h
  have hdec := decode_repNotifBytes 5 ((4 + j) % 65536) (by omega) (by omega)
  have hd0 : repDelta 5 5 = 0 := by decide
  have e1 : (4 + j) % 65536 = ((3 + j) % 65536 + 1) % 65536 := by omega
  have hd1 : repDelta ((3 + j) % 65536) ((4 + j) % 65536) = 1 := by
    rw [e1]; exact repDelta_succ _ (by omega)
  have hnw : ¬(3 + j + 1 ≤ 3) := by omega
  have hlt : ¬(N ≤ j + 1) := by omega
  have he : (3 + (j + 1)) % 65536 = (4 + j) % 65536 := by omega
  unfold handleRepNotification
  simp [hdec, repNotifBytes_length, List.getD, hd0, hd1, h1, h2, h3, h4, h5,
    h6, h7, h8, h9, h10, h11, hnw, hlt, he, recordBottomPosition,
    updateRepRanges, getWindowSize, c3Inv, countCompleted]

theorem c3final (s : AppState) (N : Nat) (hN : 1 ≤ N)
    (h : c3Inv s N (N - 1)) :
    (handleRepNotification s (repNotifBytes 5 ((3 + N) % 65536))).2 =
      [Event.log, Event.log, Event.bottomDetected,
       Event.sessionCompleted N] ∧
    (handleRepNotification s (repNotifBytes 5 ((3 + N) % 65536))).1.history =
      [{ reps := N, targetRepsReq := N }] ∧
    (handleRepNotification s
      (repNotifBytes 5 ((3 + N) % 65536))).1.currentWorkout = none := by
  obtain ⟨h1, h2, h3, h4, h5, h6, h7, h8, h9, h10, h11⟩ := h
  have hdec := decode_repNotifBytes 5 ((3 + N) % 65536) (by omega) (by omega)
  have hd0 : repDelta 5 5 = 0 := by decide
  have e1 : (3 + N) % 65536 = ((3 + (N - 1)) % 65536 + 1) % 65536 := by omega
  have hd1 : repDelta ((3 + (N - 1)) % 65536) ((3 + N) % 65536) = 1 := by
    rw [e1]; exact repDelta_succ _ (by omega)
  have hnw : ¬(3 + (N - 1) + 1 ≤ 3) := by omega
  have hge : N ≤ N - 1 + 1 := by omega
  have heq : N - 1 + 1 = N := by omega
  have hpos : 0 < N := hN
  unfold handleRepNotification
  simp [hdec, repNotifBytes_length, List.getD, hd0, hd1, h1, h2, h3, h4, h5,
    h6, h7, h8, h9, h10, h11, hnw, hge, heq, hpos, recordBottomPosition,
    updateRepRanges, getWindowSize, completeWorkout, resetRepCountersToEmpty,
    countCompleted]

theorem runRepNotifications_cons (s : AppState) (d : List Nat)
    (rest : List (List Nat)) :
    runRepNotifications s (d :: rest) =
      ((runRepNotifications (handleRepNotification s d).1 rest).1,
       (handleRepNotification s d).2 ++
         (runRepNotifications (handleRepNotification s d).1 rest).2) := by
  simp [runRepNotifications]

theorem runRepNotifications_append (s : AppState) (l1 l2 : List (List Nat)) :
    runRepNotifications s (l1 ++ l2) =
      ((runRepNotifications (runRepNotifications s l1).1 l2).1,
       (runRepNotifications s l1).2 ++
         (runRepNotifications (runRepNotifications s l1).1 l2).2) := by
  induction l1 generalizing s with
  | nil => simp [runRepNotifications]
  | cons d rest ih =>
      simp [runRepNotifications_cons, ih, List.append_assoc]

theorem countCompleted_append (a b : List Event) :
    countCompleted (a ++ b) = countCompleted a + countCompleted b := by
  simp [countCompleted, List.filter_append]

theorem c3runWork (N : Nat) : ∀ (m j : Nat) (s : AppState), c3Inv s N j →
    j + m + 1 ≤ N →
    c3Inv (runRepNotifications s ((List.range m).map
      (fun i => repNotifBytes 5 ((4 + j + i) % 65536)))).1 N (j + m) ∧
    countCompleted (runRepNotifications s ((List.range m).map
      (fun i => repNotifBytes 5 ((4 + j + i) % 65536)))).2 = 0 := by
  intro m
  induction m with
  | zero =>
      intro j s h hm
      simpa [runRepNotifications, countCompleted] using h
  | succ m ih =>
      intro j s h hm
      have hfun : (fun i => repNotifBytes 5 ((4 + j + (i + 1)) % 65536)) =
          (fun i => repNotifBytes 5 ((4 + (j + 1) + i) % 65536)) := by
        funext i
        congr 2
        omega
      have hstep := c3work s N j h (by omega)
      have hrest := ih (j + 1) _ hstep.1 (by omega)
      rw [List.range_succ_eq_map, List.map_cons, runRepNotifications_cons]
      simp only [List.map_map]
      have hcomp : (fun i => repNotifBytes 5 ((4 + j + i) % 65536)) ∘ Nat.succ =
          (fun i => repNotifBytes 5 ((4 + (j + 1) + i) % 65536)) := by
        funext i
        simp [Function.comp]
        congr 2
        omega
      rw [hcomp]
      simp only [Nat.add_zero]
      refine ⟨?_, ?_⟩
      · have : j + (m + 1) = j + 1 + m := by omega
        rw [this]
        exact hrest.1
      · rw [countCompleted_append, hstep.2, hrest.2]

theorem c3warmRun (N : Nat) :
    c3Inv (runRepNotifications (sessionStart 3 N false false 500 500)
      ((List.range 4).map (fun i => repNotifBytes 5 (i % 65536)))).1 N 0 ∧
    countCompleted (runRepNotifications (sessionStart 3 N false false 500 500)
      ((List.range 4).map (fun i => repNotifBytes 5 (i % 65536)))).2 = 0 := by
  have A := c3seed N
  have B := c3warm0 _ N A.1
  have C := c3warm1 _ N B.1
  have D := c3warm2 _ N C.1
  have e4 : (List.range 4).map (fun i => repNotifBytes 5 (i % 65536)) =
      [repNotifBytes 5 0, repNotifBytes 5 1, repNotifBytes 5 2,
       repNotifBytes 5 3] := by
    norm_num [List.range_succ]
  rw [e4, runRepNotifications_cons, runRepNotifications_cons,
      runRepNotifications_cons, runRepNotifications_cons]
  simp only [runRepNotifications]
  refine ⟨D.1, ?_⟩
  simp only [countCompleted_append, A.2, B.2, C.2, D.2]
  simp [countCompleted]

theorem runRepNotifications_nil (s : AppState) :
    runRepNotifications s [] = (s, []) := rfl

/-- **C3** — For every N ≥ 1, feeding the rep detector (warmup target
3, targetReps = N, stop-at-top disabled, Just Lift disabled) a synthetic
trace of one seeding notification followed by 3 warmup and then N
working rep-complete events (complete counter incrementing by one each
time, modulo 2^16) yields exactly one session-completed event, archived
with workingReps = N at that point; and after each of the first 3
completed reps only the warmup counter has been incremented, the
working counter staying 0. -/
theorem C3_rep_detector_exact_completion (N : Nat) (hN : 1 ≤ N) :
    countCompleted (runRepNotifications (sessionStart 3 N false false 500 500)
      ((List.range (4 + N)).map (fun i => repNotifBytes 5 (i % 65536)))).2 = 1 ∧
    Event.sessionCompleted N ∈
      (runRepNotifications (sessionStart 3 N false false 500 500)
        ((List.range (4 + N)).map (fun i => repNotifBytes 5 (i % 65536)))).2 ∧
    (runRepNotifications (sessionStart 3 N false false 500 500)
      ((List.range (4 + N)).map
        (fun i => repNotifBytes 5 (i % 65536)))).1.history =
      [{ reps := N, targetRepsReq := N }] ∧
    (∀ k, k ≤ 3 →
      (runRepNotifications (sessionStart 3 N false false 500 500)
        ((List.range (k + 1)).map
          (fun i => repNotifBytes 5 (i % 65536)))).1.warmupReps = k ∧
      (runRepNotifications (sessionStart 3 N false false 500 500)
        ((List.range (k + 1)).map
          (fun i => repNotifBytes 5 (i % 65536)))).1.workingReps = 0) := by
  obtain ⟨M, rfl⟩ : ∃ M, N = M + 1 := ⟨N - 1, by omega⟩
  have htr : (List.range (4 + (M + 1))).map
      (fun i => repNotifBytes 5 (i % 65536)) =
      ((List.range 4).map (fun i => repNotifBytes 5 (i % 65536)) ++
       ((List.range M).map (fun i => repNotifBytes 5 ((4 + i) % 65536)) ++
        [repNotifBytes 5 ((3 + (M + 1)) % 65536)])) := by
    have hfun1 : ((fun i => repNotifBytes 5 (i % 65536)) ∘ (fun x => 4 + x)) =
        (fun i => repNotifBytes 5 ((4 + i) % 65536)) := by
      funext i
      simp [Function.comp]
    have h43 : 4 + M = 3 + (M + 1) := by omega
    rw [List.range_add, List.map_append, List.map_map, hfun1,
        List.range_succ M, List.map_append, List.map_cons, List.map_nil, h43]
  have hWR := c3warmRun (M + 1)
  have hrun := c3runWork (M + 1) M 0 _ hWR.1 (by omega)
  simp only [Nat.add_zero, Nat.zero_add] at hrun
  have hInvM : c3Inv (runRepNotifications
      (runRepNotifications (sessionStart 3 (M + 1) false false 500 500)
        ((List.range 4).map (fun i => repNotifBytes 5 (i % 65536)))).1
      ((List.range M).map (fun i => repNotifBytes 5 ((4 + i) % 65536)))).1
      (M + 1) (M + 1 - 1) := by
    simpa using hrun.1
  have hfin := c3final _ (M + 1) (by omega) hInvM
  refine ⟨?_, ?_, ?_, ?_⟩
  · rw [htr, runRepNotifications_append, runRepNotifications_append,
        runRepNotifications_cons, runRepNotifications_nil]
    simp only [List.append_nil]
    rw [countCompleted_append, countCompleted_append, hWR.2, hrun.2, hfin.1]
    simp [countCompleted]
  · rw [htr, runRepNotifications_append, runRepNotifications_append,
        runRepNotifications_cons, runRepNotifications_nil]
    simp only [List.append_nil]
    rw [hfin.1]
    simp
  · rw [htr, runRepNotifications_append, runRepNotifications_append,
        runRepNotifications_cons, runRepNotifications_nil]
    exact hfin.2.1
  · intro k hk
    have A := c3seed (M + 1)
    have B := c3warm0 _ (M + 1) A.1
    have C := c3warm1 _ (M + 1) B.1
    have D := c3warm2 _ (M + 1) C.1
    interval_cases k
    · have e1 : (List.range 1).map (fun i => repNotifBytes 5 (i % 65536)) =
          [repNotifBytes 5 0] := by norm_num [List.range_succ]
      rw [e1, runRepNotifications_cons, runRepNotifications_nil]
      exact ⟨A.1.1, A.1.2.1⟩
    · have e2 : (List.range 2).map (fun i => repNotifBytes 5 (i % 65536)) =
          [repNotifBytes 5 0, repNotifBytes 5 1] := by
        norm_num [List.range_succ]
      rw [e2, runRepNotifications_cons, runRepNotifications_cons,
          runRepNotifications_nil]
      exact ⟨B.1.1, B.1.2.1⟩
    · have e3 : (List.range 3).map (fun i => repNotifBytes 5 (i % 65536)) =
          [repNotifBytes 5 0, repNotifBytes 5 1, repNotifBytes 5 2] := by
        norm_num [List.range_succ]
      rw [e3, runRepNotifications_cons, runRepNotifications_cons,
          runRepNotifications_cons, runRepNotifications_nil]
      exact ⟨C.1.1, C.1.2.1⟩
    · have e4 : (List.range 4).map (fun i => repNotifBytes 5 (i % 65536)) =
          [repNotifBytes 5 0, repNotifBytes 5 1, repNotifBytes 5 2,
           repNotifBytes 5 3] := by
        norm_num [List.range_succ]
      rw [e4, runRepNotifications_cons, runRepNotifications_cons,
          runRepNotifications_cons, runRepNotifications_cons,
          runRepNotifications_nil]
      exact ⟨D.1.1, D.1.2.1⟩

/-- Witness for C3: the exact-completion property applied at the
concrete target N = 2. -/
theorem C3_rep_detector_exact_completion_witness :
    countCompleted (runRepNotifications (sessionStart 3 2 false false 500 500)
      ((List.range (4 + 2)).map (fun i => repNotifBytes 5 (i % 65536)))).2 = 1 :=
  (C3_rep_detector_exact_completion 2 (by decide)).1

/-- Concrete armed Just-Lift state for the C1 witness: calibrated range
1000 on cable A, gate armed at t=1000 ms. -/
def c1S : AppState :=
  { sessionStart 3 5 false true 120 900 with
    minRepPosA := some 100, maxRepPosA := some 1100,
    autoStopStartTime := some 1000 }

/-- **C1** — In Just-Lift sessions the auto-stop gate never emits its
trigger while every sample arrives less than 5000 ms after arming; once a
sample arrives with the dwell elapsed it triggers exactly once, disarming
the gate and ending Just-Lift mode; leaving the danger zone clears the
arming timestamp, so a fresh entry arms at the current time and must
accumulate a fresh 5 seconds; while neither cable's calibrated range
exceeds the 50-unit noise floor the gate stays disarmed with zero
progress and no events; and outside Just-Lift mode the monitor loop
emits nothing at all. -/
theorem C1_autostop_gate :
    (∀ (s : AppState) (pA pB now : ℤ),
      (∀ t0, s.autoStopStartTime = some t0 → now - t0 < 5000) →
      countTriggers (checkAutoStop s pA pB now).2.2 = 0) ∧
    (∀ (s : AppState) (pA pB now t0 : ℤ) (w : CurrentWorkout),
      s.autoStopStartTime = some t0 → 5000 ≤ now - t0 →
      s.currentWorkout = some w → autoStopDanger s pA pB = true →
      (jsTruthy s.minRepPosA = true ∨ jsTruthy s.minRepPosB = true) →
      countTriggers (checkAutoStop s pA pB now).2.2 = 1 ∧
      (checkAutoStop s pA pB now).1.autoStopStartTime = none ∧
      (checkAutoStop s pA pB now).1.isJustLiftMode = false) ∧
    (∀ (s : AppState) (pA pB now : ℤ),
      (jsTruthy s.minRepPosA = true ∨ jsTruthy s.minRepPosB = true) →
      (50 < autoRangeA s ∨ 50 < autoRangeB s) →
      autoStopDanger s pA pB = false →
      checkAutoStop s pA pB now = ({ s with autoStopStartTime := none }, 0, [])) ∧
    (∀ (s : AppState) (pA pB now : ℤ),
      s.autoStopStartTime = none → autoStopDanger s pA pB = true →
      (jsTruthy s.minRepPosA = true ∨ jsTruthy s.minRepPosB = true) →
      checkAutoStop s pA pB now =
        ({ s with autoStopStartTime := some now }, 0, [])) ∧
    (∀ (s : AppState) (pA pB now : ℤ),
      autoRangeA s ≤ 50 → autoRangeB s ≤ 50 →
      checkAutoStop s pA pB now = (s, 0, [])) ∧
    (∀ (samples : List (ℤ × ℤ × ℤ)) (s : AppState),
      s.isJustLiftMode = false → (runMonitorSamples s samples).2 = []) := by
  refine ⟨?_, ?_, ?_, ?_, ?_, ?_⟩
  · intro s pA pB now h
    unfold checkAutoStop
    split_ifs with h1 h2 h3
    · simp [countTriggers]
    · simp [countTriggers]
    · rcases hs : s.autoStopStartTime with _ | t0
      · simp only [hs, Option.getD]
        rw [if_neg (by omega : ¬((5000 : ℤ) ≤ now - now))]
        simp [countTriggers]
      · have hlt := h t0 hs
        simp only [hs, Option.getD]
        rw [if_neg (by omega : ¬((5000 : ℤ) ≤ now - t0))]
        simp [countTriggers]
    · simp [countTriggers]
  · intro s pA pB now t0 w hArm hDwell hW hDanger hTruthy
    have g1b : ¬(jsTruthy s.minRepPosA = false ∧ jsTruthy s.minRepPosB = false) := by
      rcases hTruthy with h | h <;> simp [h]
    have g2b : ¬(autoRangeA s ≤ 50 ∧ autoRangeB s ≤ 50) := by
      unfold autoStopDanger at hDanger
      simp only [decide_eq_true_eq, Bool.or_eq_true] at hDanger
      rcases hDanger with ⟨h, _⟩ | ⟨h, _⟩
      · intro hc; exact absurd h (not_lt.2 hc.1)
      · intro hc; exact absurd h (not_lt.2 hc.2)
    unfold checkAutoStop
    simp [g1b, g2b, hDanger, hArm, hDwell, hW, stopWorkout, completeWorkout,
      resetRepCountersToEmpty, countTriggers]
  · intro s pA pB now hTruthy hRange hDanger
    have g1b : ¬(jsTruthy s.minRepPosA = false ∧ jsTruthy s.minRepPosB = false) := by
      rcases hTruthy with h | h <;> simp [h]
    have g2b : ¬(autoRangeA s ≤ 50 ∧ autoRangeB s ≤ 50) := by
      rcases hRange with h | h
      · intro hc; exact absurd h (not_lt.2 hc.1)
      · intro hc; exact absurd h (not_lt.2 hc.2)
    unfold checkAutoStop
    simp [g1b, g2b, hDanger]
  · intro s pA pB now hNone hDanger hTruthy
    have g1b : ¬(jsTruthy s.minRepPosA = false ∧ jsTruthy s.minRepPosB = false) := by
      rcases hTruthy with h | h <;> simp [h]
    have g2b : ¬(autoRangeA s ≤ 50 ∧ autoRangeB s ≤ 50) := by
      unfold autoStopDanger at hDanger
      simp only [decide_eq_true_eq, Bool.or_eq_true] at hDanger
      rcases hDanger with ⟨h, _⟩ | ⟨h, _⟩
      · intro hc; exact absurd h (not_lt.2 hc.1)
      · intro hc; exact absurd h (not_lt.2 hc.2)
    unfold checkAutoStop
    simp [g1b, g2b, hDanger, hNone]
  · intro s pA pB now hA hB
    unfold checkAutoStop
    split_ifs with h1 h2 h3
    · rfl
    · rfl
    · exact absurd ⟨not_lt.2 hA, not_lt.2 hB⟩ h2
    · exact absurd ⟨not_lt.2 hA, not_lt.2 hB⟩ h2
  · intro samples
    induction samples with
    | nil => intro s h; rfl
    | cons x rest ih =>
        intro s h
        obtain ⟨pA, pB, now⟩ := x
        have h2 := ih { s with
          isJustLiftMode := false, currentSample := some (pA, pB) } (by simp)
        simp [runMonitorSamples, processMonitorSample, h, h2]

/-- Witness for C1: the armed state `c1S` with a bottom-zone sample at
t=6000 ms (5000 ms after arming) triggers exactly once, disarms, and
ends Just-Lift mode. -/
theorem C1_autostop_gate_witness :
    countTriggers (checkAutoStop c1S 120 900 6000).2.2 = 1 ∧
    (checkAutoStop c1S 120 900 6000).1.autoStopStartTime = none ∧
    (checkAutoStop c1S 120 900 6000).1.isJustLiftMode = false :=
  C1_autostop_gate.2.1 c1S 120 900 6000 1000
    { targetRepsReq := 5, warmupEnded := false } (by rfl) (by decide)
    (by rfl) (by decide) (Or.inl (by decide))


/-- A wire trace is non-interleaved: any byte of operation `i` occurring
before some byte of a different operation `j` is separated from it by
operation `i`'s resolution. -/
def qNoInterleave (w : List WireEv) : Prop :=
  ∀ (pre post : List WireEv) (j b : Nat),
    w = pre ++ WireEv.byte j b :: post →
    ∀ i, i ≠ j → (∃ b2, WireEv.byte i b2 ∈ pre) → WireEv.ack i ∈ pre

/-- Any operation with bytes on the wire but no resolution yet is the
(unique) in-flight operation. -/
def qOpenInflight (s : QueueState) : Prop :=
  ∀ i, (∃ b, WireEv.byte i b ∈ s.wire) → WireEv.ack i ∉ s.wire →
    ∃ sent rem, s.inflight = some (i, sent, rem)

/-- The queue invariant: the wire trace is non-interleaved and every
unresolved operation on the wire is the in-flight one. -/
def qInv (s : QueueState) : Prop :=
  qNoInterleave s.wire ∧ qOpenInflight s

theorem append_singleton_eq_cases {α : Type} (w pre post : List α) (c x : α)
    (h : w ++ [x] = pre ++ c :: post) :
    (∃ post2, w = pre ++ c :: post2 ∧ post = post2 ++ [x]) ∨
    (pre = w ∧ c = x ∧ post = []) := by
  rcases List.eq_nil_or_concat post with hp | ⟨q, y, hq⟩
  · subst hp
    have hl : w.length = pre.length := by
      have := congrArg List.length h
      simp at this
      omega
    rcases List.append_inj h hl with ⟨h1, h2⟩
    right
    refine ⟨h1.symm, ?_, rfl⟩
    simpa using h2.symm
  · rw [List.concat_eq_append] at hq
    subst hq
    have h' : w ++ [x] = (pre ++ c :: q) ++ [y] := by
      simpa using h
    have hl : w.length = (pre ++ c :: q).length := by
      have := congrArg List.length h'
      simp at this
      simp
      omega
    rcases List.append_inj h' hl with ⟨h1, h2⟩
    left
    refine ⟨q, h1, ?_⟩
    have hxy : x = y := by simpa using h2
    rw [hxy]

theorem qInv_step {s t : QueueState} (h : qInv s) (st : QStep s t) : qInv t := by
  rcases h with ⟨ha, hb⟩
  cases st with
  | submit id bytes hid => exact ⟨ha, hb⟩
  | start id bytes rest h1 h2 =>
      refine ⟨ha, ?_⟩
      intro i hib hia
      rcases hb i hib hia with ⟨sent, rem, hin⟩
      rw [h1] at hin
      cases hin
  | tx id sent b bs hin =>
      constructor
      · intro pre post j b2 hw i hij hbe
        rcases hbe with ⟨b3, hb3⟩
        have hw0 : s.wire ++ [WireEv.byte id b] =
            pre ++ WireEv.byte j b2 :: post := hw
        rcases append_singleton_eq_cases s.wire pre post
            (WireEv.byte j b2) (WireEv.byte id b) hw0 with
          ⟨post2, hw2, _⟩ | ⟨hpre, hc, _⟩
        · exact ha pre post2 j b2 hw2 i hij ⟨b3, hb3⟩
        · injection hc with hj _
          subst hj
          rw [hpre] at hb3 ⊢
          by_cases hack : WireEv.ack i ∈ s.wire
          · exact hack
          · rcases hb i ⟨b3, hb3⟩ hack with ⟨sent2, rem2, hin2⟩
            rw [hin] at hin2
            simp at hin2
            exact absurd hin2.1.symm hij
      · intro i hib hia
        by_cases hi : i = id
        · subst hi
          exact ⟨sent ++ [b], bs, rfl⟩
        · have hib2 : ∃ bb, WireEv.byte i bb ∈ s.wire := by
            rcases hib with ⟨bb, hbb⟩
            rcases List.mem_append.1 hbb with hh | hh
            · exact ⟨bb, hh⟩
            · rw [List.mem_singleton] at hh
              injection hh with h1 _
              exact absurd h1 hi
          have hia2 : WireEv.ack i ∉ s.wire :=
            fun hx => hia (List.mem_append.2 (Or.inl hx))
          rcases hb i hib2 hia2 with ⟨sent2, rem2, hin2⟩
          rw [hin] at hin2
          simp at hin2
          exact absurd hin2.1.symm hi
  | resolve id sent hin =>
      constructor
      · intro pre post j b2 hw i hij hbe
        have hw0 : s.wire ++ [WireEv.ack id] =
            pre ++ WireEv.byte j b2 :: post := hw
        rcases append_singleton_eq_cases s.wire pre post
            (WireEv.byte j b2) (WireEv.ack id) hw0 with
          ⟨post2, hw2, _⟩ | ⟨_, hc, _⟩
        · exact ha pre post2 j b2 hw2 i hij hbe
        · exact WireEv.noConfusion hc
      · intro i hib hia
        have hib2 : ∃ bb, WireEv.byte i bb ∈ s.wire := by
          rcases hib with ⟨bb, hbb⟩
          rcases List.mem_append.1 hbb with hh | hh
          · exact ⟨bb, hh⟩
          · rw [List.mem_singleton] at hh
            exact WireEv.noConfusion hh
        have hia2 : WireEv.ack i ∉ s.wire :=
          fun hx => hia (List.mem_append.2 (Or.inl hx))
        rcases hb i hib2 hia2 with ⟨sent2, rem2, hin2⟩
        rw [hin] at hin2
        simp at hin2
        have hmem : WireEv.ack i ∈ s.wire ++ [WireEv.ack id] := by
          rw [← hin2.1]
          simp
        exact absurd hmem hia

theorem qInv_reach {s : QueueState} (h : QReach s) : qInv s := by
  induction h with
  | init =>
      constructor
      · intro pre post j b hw
        simp [QueueState.init] at hw
      · intro i hib
        rcases hib with ⟨b, hbb⟩
        simp [QueueState.init] at hbb
  | step hr hst ih => exact qInv_step ih hst

/-- **C9** — Two GATT write operations submitted concurrently are never
interleaved on the wire: in every state reachable through the
single-flight FIFO queue (at most one operation in flight, started in
submission order), once a byte of one operation is on the wire, no byte
of a different operation appears until the first operation's
acknowledgment resolves. -/
theorem C9_single_flight_no_interleave :
    ∀ s : QueueState, QReach s →
      ∀ (pre post : List WireEv) (j b : Nat),
        s.wire = pre ++ WireEv.byte j b :: post →
        ∀ i, i ≠ j → (∃ b2, WireEv.byte i b2 ∈ pre) →
        WireEv.ack i ∈ pre := by
  intro s hs pre post j b hw i hij hbe
  exact (qInv_reach hs).1 pre post j b hw i hij hbe

/-- Witness for C9: a concrete run — submit op 1 (bytes 10, 20), run it
to resolution, submit op 2 (byte 30), transmit it — reaches a wire trace
in which op 2's byte is preceded by op 1's bytes, and the theorem yields
op 1's acknowledgment in the prefix. -/
theorem C9_single_flight_no_interleave_witness :
    WireEv.ack 1 ∈ [WireEv.byte 1 10, WireEv.byte 1 20, WireEv.ack 1] := by
  have r0 : QReach QueueState.init := QReach.init
  have r1 : QReach ⟨[(1, [10, 20])], none, [], [1]⟩ :=
    r0.step (QStep.submit _ 1 [10, 20] (by decide))
  have r2 : QReach ⟨[], some (1, [], [10, 20]), [], [1]⟩ :=
    r1.step (QStep.start _ 1 [10, 20] [] rfl rfl)
  have r3 : QReach ⟨[], some (1, [10], [20]), [WireEv.byte 1 10], [1]⟩ :=
    r2.step (QStep.tx _ 1 [] 10 [20] rfl)
  have r4 : QReach ⟨[], some (1, [10, 20], []),
      [WireEv.byte 1 10, WireEv.byte 1 20], [1]⟩ :=
    r3.step (QStep.tx _ 1 [10] 20 [] rfl)
  have r5 : QReach ⟨[], none,
      [WireEv.byte 1 10, WireEv.byte 1 20, WireEv.ack 1], [1]⟩ :=
    r4.step (QStep.resolve _ 1 [10, 20] rfl)
  have r6 : QReach ⟨[(2, [30])], none,
      [WireEv.byte 1 10, WireEv.byte 1 20, WireEv.ack 1], [1, 2]⟩ :=
    r5.step (QStep.submit _ 2 [30] (by decide))
  have r7 : QReach ⟨[], some (2, [], [30]),
      [WireEv.byte 1 10, WireEv.byte 1 20, WireEv.ack 1], [1, 2]⟩ :=
    r6.step (QStep.start _ 2 [30] [] rfl rfl)
  have r8 : QReach ⟨[], some (2, [30], []),
      [WireEv.byte 1 10, WireEv.byte 1 20, WireEv.ack 1,
        WireEv.byte 2 30], [1, 2]⟩ :=
    r7.step (QStep.tx _ 2 [] 30 [] rfl)
  exact C9_single_flight_no_interleave _ r8
    [WireEv.byte 1 10, WireEv.byte 1 20, WireEv.ack 1] [] 2 30 rfl 1
    (by decide) ⟨10, by decide⟩

end WMach
